import Mathlib

/-!
Verification development for the Neuropedia Clinical Directory repository.

The development shallowly embeds the filter engine (`filter_data`), the record
store operations (`load_data`, `update_data`), the photo-fetch callback pair
(`load_image_from_url` / `handle_image_response`) of
`Neuropedia_Clinical_Directory.py`, and the web dashboard pipeline of `app.py`.
Records are lists of cell strings positionally aligned to a header list, as in
the spreadsheet.  Operations that can raise in Python (a missing header name, a
row shorter than a resolved column index) are embedded as `Option`-valued
functions, `none` standing for the raised exception.
-/

namespace NCD

/-- Rows and records are lists of cell strings aligned to the header list. -/
abbrev Row := List String

/-- Python `str.lower` as used on the (ASCII) cell and query strings: `Char.toLower`
folds exactly the ASCII uppercase letters. -/
def pyLower (s : String) : String := String.mk (s.data.map Char.toLower)

/-- Python `str.strip`: remove leading and trailing whitespace characters. -/
def pyStrip (s : String) : String :=
  String.mk (((s.data.dropWhile Char.isWhitespace).reverse.dropWhile Char.isWhitespace).reverse)

/-- Test whether the first character list occurs at the start of the second. -/
def startsWithL : List Char → List Char → Bool
  | [], _ => true
  | _ :: _, [] => false
  | a :: as, b :: bs => a == b && startsWithL as bs

/-- Occurrence of the needle character list anywhere inside the haystack. -/
def isSubstr (n : List Char) : List Char → Bool
  | [] => startsWithL n []
  | c :: t => startsWithL n (c :: t) || isSubstr n t

/-- Python `needle in hay` on strings. -/
def strIn (needle hay : String) : Bool := isSubstr needle.data hay.data

/-- Python `list.index` (first position of `name`); `none` models the raised
`ValueError` when the name is absent. -/
def pyIndexAux : List String → String → Nat → Option Nat
  | [], _, _ => none
  | h :: t, name, i => if h == name then some i else pyIndexAux t name (i + 1)

/-- Resolution of a header name to its positional slot, as `self.headers.index(name)`. -/
def pyIndex (headers : List String) (name : String) : Option Nat :=
  pyIndexAux headers name 0

/-- Python list-comprehension filtering where evaluating the predicate on a row can
raise (modelled by the predicate returning `none`, e.g. a row shorter than the
resolved column index); any raising row aborts the whole comprehension. -/
def pyFilter (p : Row → Option Bool) : List Row → Option (List Row)
  | [] => some []
  | r :: rs =>
    match p r with
    | none => none
    | some b =>
      match pyFilter p rs with
      | none => none
      | some rest => some (if b then r :: rest else rest)

/-- The filter inputs read from the desktop GUI widgets by `filter_data`:
the checked location checkbox texts, the five free-text queries, and the
age-group combo box text. -/
structure Criteria where
  selectedLocations : List String
  nameText : String
  ageText : String
  roleText : String
  daysText : String
  specialtyText : String
  languagesText : String

/-- Location checkbox stage of `filter_data` (lines 659-662): inactive when no
checkbox is checked; otherwise keeps the rows whose `"Location"` cell contains
any selected choice verbatim (no case folding in the source). -/
def locationStage (locs : List String) (headers : List String) (rows : List Row) :
    Option (List Row) :=
  if locs.isEmpty then some rows
  else
    match pyIndex headers "Location" with
    | none => none
    | some idx =>
      pyFilter (fun row => (row[idx]?).map (fun v => locs.any (fun loc => strIn loc v))) rows

/-- Free-text stage of `filter_data` (name, role, days, specialty, languages):
the query is stripped and lowercased; an empty result deactivates the stage;
otherwise rows are kept when the lowercased cell contains the processed query. -/
def textStage (query colName : String) (headers : List String) (rows : List Row) :
    Option (List Row) :=
  if pyLower (pyStrip query) = "" then some rows
  else
    match pyIndex headers colName with
    | none => none
    | some idx =>
      pyFilter (fun row => (row[idx]?).map
        (fun v => strIn (pyLower (pyStrip query)) (pyLower v))) rows

/-- Age-group dropdown stage of `filter_data` (lines 669-676): exact cell
equality, inactive for the sentinel `"All"` or the empty string. -/
def ageStage (value : String) (headers : List String) (rows : List Row) :
    Option (List Row) :=
  if value ≠ "All" ∧ value ≠ "" then
    match pyIndex headers "Age Group Seen" with
    | none => none
    | some idx => pyFilter (fun row => (row[idx]?).map (fun v => v == value)) rows
  else some rows

/-- `NeuropediaApp.filter_data` (lines 655-698): the seven stages applied in
source order — location checkboxes, name, age group, role, days available,
specialty areas, languages spoken. -/
def filter_data (c : Criteria) (headers : List String) (records : List Row) :
    Option (List Row) :=
  (locationStage c.selectedLocations headers records).bind fun d1 =>
  (textStage c.nameText "Clinicians Name" headers d1).bind fun d2 =>
  (ageStage c.ageText headers d2).bind fun d3 =>
  (textStage c.roleText "Role" headers d3).bind fun d4 =>
  (textStage c.daysText "Days Available" headers d4).bind fun d5 =>
  (textStage c.specialtyText "Specialty Areas" headers d5).bind fun d6 =>
  textStage c.languagesText "Languages Spoken" headers d6

/-- Evaluation of a per-row criterion: resolve the column, read the cell, apply
the predicate; `false` when the column or the cell is missing (such a row can
only be reached by `matchesAll` when an earlier criterion already rejected it,
since `filter_data` itself raises there). -/
def optPred (idx? : Option Nat) (p : String → Bool) (row : Row) : Bool :=
  match idx? with
  | none => false
  | some idx =>
    match row[idx]? with
    | none => false
    | some v => p v

/-- Row-level form of the location checkbox criterion. -/
def locationOk (locs : List String) (headers : List String) (row : Row) : Bool :=
  if locs.isEmpty then true
  else optPred (pyIndex headers "Location") (fun v => locs.any (fun loc => strIn loc v)) row

/-- Row-level form of a free-text criterion. -/
def textOk (query colName : String) (headers : List String) (row : Row) : Bool :=
  if pyLower (pyStrip query) = "" then true
  else optPred (pyIndex headers colName)
    (fun v => strIn (pyLower (pyStrip query)) (pyLower v)) row

/-- Row-level form of the age-group criterion. -/
def ageOk (value : String) (headers : List String) (row : Row) : Bool :=
  if value ≠ "All" ∧ value ≠ "" then
    optPred (pyIndex headers "Age Group Seen") (fun v => v == value) row
  else true

/-- Conjunction of all seven criteria of `filter_data` on one row. -/
def matchesAll (c : Criteria) (headers : List String) (row : Row) : Bool :=
  locationOk c.selectedLocations headers row &&
  textOk c.nameText "Clinicians Name" headers row &&
  ageOk c.ageText headers row &&
  textOk c.roleText "Role" headers row &&
  textOk c.daysText "Days Available" headers row &&
  textOk c.specialtyText "Specialty Areas" headers row &&
  textOk c.languagesText "Languages Spoken" headers row

/-- The state of every filter widget after `clear_filters`: nothing checked,
empty queries, age combo on its first entry `"All"`. -/
def inactiveCriteria : Criteria :=
  { selectedLocations := [], nameText := "", ageText := "All", roleText := "",
    daysText := "", specialtyText := "", languagesText := "" }

/-- Criteria with only the name query set. -/
def onlyName (q : String) : Criteria := { inactiveCriteria with nameText := q }

/-- Criteria with only the role query set. -/
def onlyRole (q : String) : Criteria := { inactiveCriteria with roleText := q }

/-- Criteria with only the days-available query set. -/
def onlyDays (q : String) : Criteria := { inactiveCriteria with daysText := q }

/-- Criteria with only the specialty query set. -/
def onlySpecialty (q : String) : Criteria := { inactiveCriteria with specialtyText := q }

/-- Criteria with only the languages query set. -/
def onlyLanguages (q : String) : Criteria := { inactiveCriteria with languagesText := q }

/-- Criteria with only location checkboxes checked. -/
def onlyLocations (locs : List String) : Criteria :=
  { inactiveCriteria with selectedLocations := locs }

/-- The in-memory record store of the desktop app: `self.headers` and
`self.original_data`, both replaced wholesale by a successful load. -/
structure Store where
  headers : List String
  originalData : List Row
deriving DecidableEq

/-- Outcome tag of one `update_data` invocation. -/
inductive UpdateOutcome
  | notFound
  | writeFailed
  | succeeded
deriving DecidableEq

/-- Observable result of one `update_data` invocation: the outcome tag, the
in-memory store afterwards, the completed external writes as
(1-based sheet row, values) pairs, and whether a reload was triggered. -/
structure UpdateResult where
  outcome : UpdateOutcome
  store : Store
  writes : List (Nat × List String)
  reloaded : Bool
deriving DecidableEq

/-- The search loop of `update_data` (lines 785-788): the first 0-based position
of a row whose identity cell equals `name`.  The outer `none` models the
`IndexError` raised when a scanned row is shorter than the identity column. -/
def findMatchRow (idx : Nat) (name : String) : List Row → Nat → Option (Option Nat)
  | [], _ => some none
  | row :: rest, i =>
    match row[idx]? with
    | none => none
    | some v => if v == name then some (some i) else findMatchRow idx name rest (i + 1)

/-- `NeuropediaApp.update_data` (lines 777-830) for a selected row whose identity
cell reads `selectedName`: resolve the identity column, search `original_data`,
report `notFound` without writing when no row matches; otherwise write row
`position + 2` and reload (success), or, when the remote write raises
(`writeOk = false`), report the failure leaving the store untouched.
`reloadStore` is the store produced by the reload that follows a successful
write. -/
def update_data (store : Store) (selectedName : String) (newValues : List String)
    (writeOk : Bool) (reloadStore : Store) : Option UpdateResult :=
  match pyIndex store.headers "Clinicians Name" with
  | none => none
  | some idx =>
    match findMatchRow idx selectedName store.originalData 0 with
    | none => none
    | some none => some ⟨.notFound, store, [], false⟩
    | some (some i) =>
      if writeOk then some ⟨.succeeded, reloadStore, [(i + 2, newValues)], true⟩
      else some ⟨.writeFailed, store, [], false⟩

/-- Observable result of one `load_data` invocation of the desktop app. -/
inductive LoadResult
  | emptyWarn
  | ok (headers : List String) (data : List Row)
  | failed
deriving DecidableEq

/-- `NeuropediaApp.load_data` (lines 561-594): `none` input models
`SHEET.get_all_values()` raising (reported as a load error); the empty row list
triggers the "Sheet is empty" warning; otherwise the first row becomes the
headers and the remaining rows the roster. -/
def load_data (fetched : Option (List Row)) : LoadResult :=
  match fetched with
  | none => .failed
  | some [] => .emptyWarn
  | some (h :: t) => .ok h t

/-- The photo machinery state of the desktop app: the keys of the
`self.photo_requests` dict (every value is the single `self.photo_label`), and
the current content of that label — the URL whose fetched image it shows, or
one of the status texts. -/
structure PhotoState where
  photoRequests : List String
  photoLabel : String
deriving DecidableEq

/-- Python dict insertion `photo_requests[url] = label`: keys stay unique. -/
def insertKey (k : String) (l : List String) : List String :=
  if l.contains k then l else l ++ [k]

/-- The scheme check of `load_image_from_url`: a nonempty URL whose stripped
form starts with http:// or https://. -/
def validPhotoUrl (url : String) : Bool :=
  !(url == "") &&
    (startsWithL "http://".data (pyStrip url).data ||
      startsWithL "https://".data (pyStrip url).data)

/-- `NeuropediaApp.load_image_from_url` (lines 749-758): an invalid URL leaves
the label at "No Photo" without any request; otherwise the URL is recorded in
`photo_requests` and a network request is issued while the label shows
"Loading...". -/
def load_image_from_url (s : PhotoState) (url : String) : PhotoState :=
  if validPhotoUrl url then
    { photoRequests := insertKey url s.photoRequests, photoLabel := "Loading..." }
  else { s with photoLabel := "No Photo" }

/-- `NeuropediaApp.handle_image_response` (lines 760-775): `pop` the reply URL
from `photo_requests`; when an entry was present the label is updated from the
reply (the fetched image on success — modelled as the URL itself — or
"Image Error"); a reply whose URL is absent is discarded. -/
def handle_image_response (s : PhotoState) (url : String) (ok : Bool) : PhotoState :=
  if s.photoRequests.contains url then
    { photoRequests := s.photoRequests.erase url,
      photoLabel := if ok then url else "Image Error" }
  else s

/-- Events of the photo machinery: selecting a record with the given photo URL,
and the arrival of a network reply for a URL. -/
inductive PhotoEvent
  | select (url : String)
  | response (url : String) (ok : Bool)

/-- One event of the photo machinery applied to the state. -/
def photoStep (s : PhotoState) : PhotoEvent → PhotoState
  | .select url => load_image_from_url s url
  | .response url ok => handle_image_response s url ok

/-- A sequence of photo events applied in order. -/
def photoRun (s : PhotoState) (events : List PhotoEvent) : PhotoState :=
  events.foldl photoStep s

/-- The filter widget values of the web dashboard (`app.py` `main`). -/
structure WebCriteria where
  selectedLocs : List String
  searchRole : String
  searchName : String
  searchAge : String
  searchDays : String
  searchSpecialty : String
  searchLang : String

/-- `filters_applied` (app.py lines 313-321): at least one location selected,
one query nonempty after stripping, or an age group other than "All". -/
def filters_applied (c : WebCriteria) : Bool :=
  decide (0 < c.selectedLocs.length) ||
  decide (0 < (pyStrip c.searchRole).length) ||
  decide (0 < (pyStrip c.searchName).length) ||
  (c.searchAge != "All") ||
  decide (0 < (pyStrip c.searchDays).length) ||
  decide (0 < (pyStrip c.searchSpecialty).length) ||
  decide (0 < (pyStrip c.searchLang).length)

/-- pandas `Series.str.contains(pat, case=False, na=False)` on string cells, for
a literal pattern: the patterns occurring here (location checkbox texts and
typed queries) are treated as regex-metacharacter-free, where the regex search
coincides with case-insensitive substring containment. -/
def containsCI (pat v : String) : Bool := strIn (pyLower pat) (pyLower v)

/-- Location multiselect stage of the web dashboard (app.py lines 330-332):
`'|'.join(selected_locs)` matched case-insensitively. -/
def webLocStage (locs : List String) (headers : List String) (rows : List Row) :
    Option (List Row) :=
  if locs.isEmpty then some rows
  else
    match pyIndex headers "Location" with
    | none => none
    | some idx =>
      pyFilter (fun row => (row[idx]?).map (fun v => locs.any (fun loc => containsCI loc v))) rows

/-- Free-text stage of the web dashboard: active on any nonempty raw query
(no stripping before matching), case-insensitive containment. -/
def webTextStage (query colName : String) (headers : List String) (rows : List Row) :
    Option (List Row) :=
  if query = "" then some rows
  else
    match pyIndex headers colName with
    | none => none
    | some idx => pyFilter (fun row => (row[idx]?).map (fun v => containsCI query v)) rows

/-- Age stage of the web dashboard (app.py lines 337-338): exact equality,
inactive on the empty string or "All". -/
def webAgeStage (value : String) (headers : List String) (rows : List Row) :
    Option (List Row) :=
  if value ≠ "" ∧ value ≠ "All" then
    match pyIndex headers "Age Group Seen" with
    | none => none
    | some idx => pyFilter (fun row => (row[idx]?).map (fun v => v == value)) rows
  else some rows

/-- The filter chain of the web dashboard (app.py lines 327-344), in source
order: location, role, name, age, days, specialty, languages. -/
def webFilter (c : WebCriteria) (headers : List String) (df : List Row) :
    Option (List Row) :=
  (webLocStage c.selectedLocs headers df).bind fun d1 =>
  (webTextStage c.searchRole "Role" headers d1).bind fun d2 =>
  (webTextStage c.searchName "Clinicians Name" headers d2).bind fun d3 =>
  (webAgeStage c.searchAge headers d3).bind fun d4 =>
  (webTextStage c.searchDays "Days Available" headers d4).bind fun d5 =>
  (webTextStage c.searchSpecialty "Specialty Areas" headers d5).bind fun d6 =>
  webTextStage c.searchLang "Languages Spoken" headers d6

/-- What the web dashboard run renders after loading: the empty-data warning,
the please-select prompt (`st.info` + `st.stop`), the no-match warning, or the
staff table. -/
inductive WebOutcome
  | noData
  | prompt
  | noMatch
  | table (rows : List Row)
deriving DecidableEq

/-- The `main` pipeline of app.py after a successful connection (lines 271-348):
stop on empty data, stop with the prompt when no filter is applied, otherwise
filter and render the table or the no-match warning. -/
def webMain (c : WebCriteria) (headers : List String) (df : List Row) :
    Option WebOutcome :=
  if df.isEmpty then some .noData
  else if !(filters_applied c) then some .prompt
  else (webFilter c headers df).map fun f => if f.isEmpty then .noMatch else .table f

/-! Helper lemmas about the string primitives and the filter stages. -/

theorem pyLower_nil : pyLower "" = "" := rfl

theorem pyStrip_nil : pyStrip "" = "" := rfl

theorem isSubstr_nil : ∀ h : List Char, isSubstr [] h = true
  | [] => rfl
  | _ :: t => by simp [isSubstr, startsWithL, isSubstr_nil t]

theorem strIn_nil (s : String) : strIn "" s = true := isSubstr_nil s.data

theorem pyFilter_some {p : Row → Option Bool} :
    ∀ {rows out : List Row}, pyFilter p rows = some out →
      out = rows.filter (fun r => (p r).getD false) := by
  intro rows
  induction rows with
  | nil =>
    intro out h
    simp [pyFilter] at h
    rw [h]
    rfl
  | cons r rs ih =>
    intro out h
    simp only [pyFilter] at h
    cases hp : p r with
    | none => rw [hp] at h; cases h
    | some b =>
      rw [hp] at h
      cases hrec : pyFilter p rs with
      | none => rw [hrec] at h; cases h
      | some rest =>
        rw [hrec] at h
        have hr := ih hrec
        cases b with
        | false =>
          simp only [if_neg Bool.false_ne_true, Option.some_inj] at h
          simp [List.filter_cons, hp, ← h, hr]
        | true =>
          simp only [if_pos rfl, Option.some_inj] at h
          simp [List.filter_cons, hp, ← h, hr]

theorem filter_then (p q : Row → Bool) (l : List Row) :
    (l.filter p).filter q = l.filter (fun r => p r && q r) := by
  induction l with
  | nil => rfl
  | cons a t ih =>
    cases hp : p a <;> cases hq : q a <;>
      simp [List.filter_cons, hp, hq, ih]

theorem getD_map_eq_optPred (idx : Nat) (P : String → Bool) (r : Row) :
    ((r[idx]?).map P).getD false = optPred (some idx) P r := by
  cases h : r[idx]? <;> simp [optPred, h]

theorem locationStage_some {locs headers : List String} {rows out : List Row}
    (h : locationStage locs headers rows = some out) :
    out = rows.filter (locationOk locs headers) := by
  unfold locationStage at h
  by_cases hl : locs.isEmpty
  · rw [if_pos hl] at h
    obtain rfl : rows = out := by simpa using h
    have hfun : locationOk locs headers = fun _ => true := by
      funext r
      simp [locationOk, hl]
    rw [hfun, List.filter_true]
  · rw [if_neg hl] at h
    cases hidx : pyIndex headers "Location" with
    | none => rw [hidx] at h; cases h
    | some idx =>
      rw [hidx] at h
      rw [pyFilter_some h]
      congr 1
      funext r
      rw [getD_map_eq_optPred]
      simp [locationOk, hl, hidx]

theorem textStage_some {q colName : String} {headers : List String} {rows out : List Row}
    (h : textStage q colName headers rows = some out) :
    out = rows.filter (textOk q colName headers) := by
  unfold textStage at h
  by_cases hq : pyLower (pyStrip q) = ""
  · rw [if_pos hq] at h
    obtain rfl : rows = out := by simpa using h
    have hfun : textOk q colName headers = fun _ => true := by
      funext r
      simp [textOk, hq]
    rw [hfun, List.filter_true]
  · rw [if_neg hq] at h
    cases hidx : pyIndex headers colName with
    | none => rw [hidx] at h; cases h
    | some idx =>
      rw [hidx] at h
      rw [pyFilter_some h]
      congr 1
      funext r
      rw [getD_map_eq_optPred]
      simp [textOk, hq, hidx]

theorem ageStage_some {v : String} {headers : List String} {rows out : List Row}
    (h : ageStage v headers rows = some out) :
    out = rows.filter (ageOk v headers) := by
  unfold ageStage at h
  by_cases hv : v ≠ "All" ∧ v ≠ ""
  · rw [if_pos hv] at h
    cases hidx : pyIndex headers "Age Group Seen" with
    | none => rw [hidx] at h; cases h
    | some idx =>
      rw [hidx] at h
      rw [pyFilter_some h]
      congr 1
      funext r
      rw [getD_map_eq_optPred]
      simp [ageOk, hv, hidx]
  · rw [if_neg hv] at h
    obtain rfl : rows = out := by simpa using h
    have hfun : ageOk v headers = fun _ => true := by
      funext r
      simp [ageOk, hv]
    rw [hfun, List.filter_true]

theorem locationStage_nil (headers : List String) (rows : List Row) :
    locationStage [] headers rows = some rows := by
  simp [locationStage]

theorem textStage_inactive {q : String} (colName : String) (headers : List String)
    (rows : List Row) (hq : pyStrip q = "") :
    textStage q colName headers rows = some rows := by
  simp [textStage, hq, pyLower_nil]

theorem textStage_blank (colName : String) (headers : List String) (rows : List Row) :
    textStage "" colName headers rows = some rows :=
  textStage_inactive colName headers rows rfl

theorem ageStage_inactive {v : String} (headers : List String) (rows : List Row)
    (hv : v = "All" ∨ v = "") :
    ageStage v headers rows = some rows := by
  rcases hv with rfl | rfl <;> simp [ageStage]

theorem ageStage_all (headers : List String) (rows : List Row) :
    ageStage "All" headers rows = some rows :=
  ageStage_inactive headers rows (Or.inl rfl)

theorem filter_data_eq {c : Criteria} {headers : List String} {records out : List Row}
    (h : filter_data c headers records = some out) :
    out = records.filter (matchesAll c headers) := by
  unfold filter_data at h
  obtain ⟨d1, h1, h⟩ := Option.bind_eq_some.mp h
  obtain ⟨d2, h2, h⟩ := Option.bind_eq_some.mp h
  obtain ⟨d3, h3, h⟩ := Option.bind_eq_some.mp h
  obtain ⟨d4, h4, h⟩ := Option.bind_eq_some.mp h
  obtain ⟨d5, h5, h⟩ := Option.bind_eq_some.mp h
  obtain ⟨d6, h6, h⟩ := Option.bind_eq_some.mp h
  rw [textStage_some h, textStage_some h6, textStage_some h5, textStage_some h4,
    ageStage_some h3, textStage_some h2, locationStage_some h1]
  simp only [filter_then]
  congr 1

theorem filter_data_all_inactive (c : Criteria) (headers : List String) (records : List Row)
    (hloc : c.selectedLocations = [])
    (hname : pyStrip c.nameText = "")
    (hage : c.ageText = "All" ∨ c.ageText = "")
    (hrole : pyStrip c.roleText = "")
    (hdays : pyStrip c.daysText = "")
    (hspec : pyStrip c.specialtyText = "")
    (hlang : pyStrip c.languagesText = "") :
    filter_data c headers records = some records := by
  unfold filter_data
  rw [hloc, locationStage_nil, Option.some_bind,
    textStage_inactive _ _ _ hname, Option.some_bind,
    ageStage_inactive _ _ hage, Option.some_bind,
    textStage_inactive _ _ _ hrole, Option.some_bind,
    textStage_inactive _ _ _ hdays, Option.some_bind,
    textStage_inactive _ _ _ hspec, Option.some_bind,
    textStage_inactive _ _ _ hlang]

theorem textStage_single (q colName v : String) :
    textStage q colName [colName] [[v]] =
      some (if strIn (pyLower (pyStrip q)) (pyLower v) then [[v]] else []) := by
  by_cases hq : pyLower (pyStrip q) = ""
  · rw [hq, strIn_nil]
    simp [textStage, hq]
  · simp [textStage, hq, pyIndex, pyIndexAux, pyFilter]

theorem locationStage_single (locs : List String) (v : String) (hne : locs ≠ []) :
    locationStage locs ["Location"] [[v]] =
      some (if locs.any (fun loc => strIn loc v) then [[v]] else []) := by
  cases locs with
  | nil => exact absurd rfl hne
  | cons a as => simp [locationStage, pyIndex, pyIndexAux, pyFilter]

theorem filter_data_onlyRole (q v : String) :
    filter_data (onlyRole q) ["Role"] [[v]] =
      some (if strIn (pyLower (pyStrip q)) (pyLower v) then [[v]] else []) := by
  simp only [filter_data, onlyRole, inactiveCriteria, locationStage_nil, textStage_blank,
    ageStage_all, textStage_single, Option.some_bind]

theorem filter_data_onlyName (q v : String) :
    filter_data (onlyName q) ["Clinicians Name"] [[v]] =
      some (if strIn (pyLower (pyStrip q)) (pyLower v) then [[v]] else []) := by
  simp only [filter_data, onlyName, inactiveCriteria, locationStage_nil, textStage_blank,
    ageStage_all, textStage_single, Option.some_bind]

theorem filter_data_onlyDays (q v : String) :
    filter_data (onlyDays q) ["Days Available"] [[v]] =
      some (if strIn (pyLower (pyStrip q)) (pyLower v) then [[v]] else []) := by
  simp only [filter_data, onlyDays, inactiveCriteria, locationStage_nil, textStage_blank,
    ageStage_all, textStage_single, Option.some_bind]

theorem filter_data_onlySpecialty (q v : String) :
    filter_data (onlySpecialty q) ["Specialty Areas"] [[v]] =
      some (if strIn (pyLower (pyStrip q)) (pyLower v) then [[v]] else []) := by
  simp only [filter_data, onlySpecialty, inactiveCriteria, locationStage_nil, textStage_blank,
    ageStage_all, textStage_single, Option.some_bind]

theorem filter_data_onlyLanguages (q v : String) :
    filter_data (onlyLanguages q) ["Languages Spoken"] [[v]] =
      some (if strIn (pyLower (pyStrip q)) (pyLower v) then [[v]] else []) := by
  simp only [filter_data, onlyLanguages, inactiveCriteria, locationStage_nil, textStage_blank,
    ageStage_all, textStage_single, Option.some_bind]

theorem filter_data_onlyLocations (locs : List String) (v : String) (hne : locs ≠ []) :
    filter_data (onlyLocations locs) ["Location"] [[v]] =
      some (if locs.any (fun loc => strIn loc v) then [[v]] else []) := by
  simp only [filter_data, onlyLocations, inactiveCriteria, locationStage_single locs v hne,
    textStage_blank, ageStage_all, Option.some_bind]

theorem some_if_keep (r : Row) (b : Bool) :
    (some (if b then [r] else []) = some [r]) ↔ b = true := by
  cases b <;> simp

/-! Theorems for the claims about the filter engine. -/

/-- Claim C1: for every record list, header list containing the referenced field
names, and criteria set, `filter_data` returns exactly the records satisfying
every active criterion (logical AND across the location, name, age-group, role,
days-available, specialty and languages filters); in particular, for headers
["Clinicians Name","Location","Role"], records [["Ann","NPD","SLP"],
["Ben","CDC","OT"]] and the single criterion name="an", the result is
[["Ann","NPD","SLP"]]. -/
theorem filter_data_and_semantics :
    (∀ (c : Criteria) (headers : List String) (records out : List Row),
        filter_data c headers records = some out →
        out = records.filter (matchesAll c headers)) ∧
    filter_data (onlyName "an") ["Clinicians Name", "Location", "Role"]
        [["Ann", "NPD", "SLP"], ["Ben", "CDC", "OT"]] = some [["Ann", "NPD", "SLP"]] :=
  ⟨fun _ _ _ _ h => filter_data_eq h, by decide⟩

/-- Witness for C1, discharging its hypothesis at the end-to-end example. -/
theorem filter_data_and_semantics_witness :
    [["Ann", "NPD", "SLP"]] =
      ([["Ann", "NPD", "SLP"], ["Ben", "CDC", "OT"]] : List Row).filter
        (matchesAll (onlyName "an") ["Clinicians Name", "Location", "Role"]) :=
  filter_data_and_semantics.1 _ _ _ _ filter_data_and_semantics.2

/-- Claim C2: when every filter is inactive (no location selected, every
free-text query empty or all-whitespace, age group "All" or empty),
`filter_data` returns the full record list unchanged, in original order. -/
theorem filter_data_identity (c : Criteria) (headers : List String) (records : List Row)
    (hloc : c.selectedLocations = [])
    (hname : pyStrip c.nameText = "")
    (hage : c.ageText = "All" ∨ c.ageText = "")
    (hrole : pyStrip c.roleText = "")
    (hdays : pyStrip c.daysText = "")
    (hspec : pyStrip c.specialtyText = "")
    (hlang : pyStrip c.languagesText = "") :
    filter_data c headers records = some records :=
  filter_data_all_inactive c headers records hloc hname hage hrole hdays hspec hlang

/-- Witness for C2 on a concrete roster with the cleared filter state. -/
theorem filter_data_identity_witness :
    filter_data inactiveCriteria ["Clinicians Name", "Location"]
      [["Ann", "NPD"], ["Ben", "CDC"]] = some [["Ann", "NPD"], ["Ben", "CDC"]] :=
  filter_data_identity inactiveCriteria _ _ rfl rfl (Or.inl rfl) rfl rfl rfl rfl

/-- Claim C3: for every non-empty record list and every criteria set, the filter
output is a subsequence of the input records — every output record occurs in
the input and any two output records keep their relative input order; the
filter never re-sorts. -/
theorem filter_data_sublist (c : Criteria) (headers : List String) (records out : List Row)
    (_hne : records ≠ [])
    (h : filter_data c headers records = some out) :
    out.Sublist records := by
  rw [filter_data_eq h]
  exact List.filter_sublist records

/-- Witness for C3 on a concrete roster and name query. -/
theorem filter_data_sublist_witness :
    ([["Ann"]] : List Row).Sublist [["Ann"], ["Ben"]] :=
  filter_data_sublist (onlyName "ann") ["Clinicians Name"] [["Ann"], ["Ben"]] [["Ann"]]
    (by decide) (by decide)

/-- Counterexample to claim C4: in the web variant the free-text queries are
used untrimmed, so the query "  Dr  " does not match the field value
"Dr. Smith", and an all-whitespace role query combined with an active name
query still excludes every record instead of being deactivated. -/
theorem web_untrimmed_query_cex :
    webMain ⟨[], "  Dr  ", "", "All", "", "", ""⟩ ["Role"] [["Dr. Smith"]] =
      some .noMatch ∧
    webMain ⟨[], "   ", "Ann", "All", "", "", ""⟩ ["Role", "Clinicians Name"]
      [["SLP", "Ann"]] = some .noMatch := by decide

/-- Claim C4 as amended: in the desktop filter engine each free-text substring
filter (role, name, days available, specialty, languages) strips and lowercases
the query and lowercases the field value, so "  Dr  " matches "Dr. Smith", and
an empty or all-whitespace query deactivates that filter so every record
passes it; in the web variant the query is used untrimmed, so "  Dr  " fails to
match "Dr. Smith" there. -/
theorem text_filters_trim_amended :
    (∀ q v, filter_data (onlyRole q) ["Role"] [[v]] =
        some (if strIn (pyLower (pyStrip q)) (pyLower v) then [[v]] else [])) ∧
    (∀ q v, filter_data (onlyName q) ["Clinicians Name"] [[v]] =
        some (if strIn (pyLower (pyStrip q)) (pyLower v) then [[v]] else [])) ∧
    (∀ q v, filter_data (onlyDays q) ["Days Available"] [[v]] =
        some (if strIn (pyLower (pyStrip q)) (pyLower v) then [[v]] else [])) ∧
    (∀ q v, filter_data (onlySpecialty q) ["Specialty Areas"] [[v]] =
        some (if strIn (pyLower (pyStrip q)) (pyLower v) then [[v]] else [])) ∧
    (∀ q v, filter_data (onlyLanguages q) ["Languages Spoken"] [[v]] =
        some (if strIn (pyLower (pyStrip q)) (pyLower v) then [[v]] else [])) ∧
    (∀ q headers records, pyStrip q = "" →
        filter_data (onlyRole q) headers records = some records) ∧
    (∀ q headers records, pyStrip q = "" →
        filter_data (onlyName q) headers records = some records) ∧
    (∀ q headers records, pyStrip q = "" →
        filter_data (onlyDays q) headers records = some records) ∧
    (∀ q headers records, pyStrip q = "" →
        filter_data (onlySpecialty q) headers records = some records) ∧
    (∀ q headers records, pyStrip q = "" →
        filter_data (onlyLanguages q) headers records = some records) ∧
    filter_data (onlyRole "  Dr  ") ["Role"] [["Dr. Smith"]] = some [["Dr. Smith"]] ∧
    webMain ⟨[], "  Dr  ", "", "All", "", "", ""⟩ ["Role"] [["Dr. Smith"]] =
      some .noMatch :=
  ⟨filter_data_onlyRole, filter_data_onlyName, filter_data_onlyDays,
    filter_data_onlySpecialty, filter_data_onlyLanguages,
    fun q h r hq => filter_data_all_inactive _ h r rfl rfl (Or.inl rfl) hq rfl rfl rfl,
    fun q h r hq => filter_data_all_inactive _ h r rfl hq (Or.inl rfl) rfl rfl rfl rfl,
    fun q h r hq => filter_data_all_inactive _ h r rfl rfl (Or.inl rfl) rfl hq rfl rfl,
    fun q h r hq => filter_data_all_inactive _ h r rfl rfl (Or.inl rfl) rfl rfl hq rfl,
    fun q h r hq => filter_data_all_inactive _ h r rfl rfl (Or.inl rfl) rfl rfl rfl hq,
    by decide, by decide⟩

/-- Witness for the amended C4, discharging the whitespace-deactivation
hypotheses on concrete whitespace queries. -/
theorem text_filters_trim_amended_witness :
    filter_data (onlyRole " ") ["X"] [["SLP"]] = some [["SLP"]] ∧
    filter_data (onlyName "  ") ["X"] [["Ann"]] = some [["Ann"]] ∧
    filter_data (onlyDays " ") ["X"] [["Mon"]] = some [["Mon"]] ∧
    filter_data (onlySpecialty " ") ["X"] [["ASD"]] = some [["ASD"]] ∧
    filter_data (onlyLanguages " ") ["X"] [["English"]] = some [["English"]] :=
  ⟨text_filters_trim_amended.2.2.2.2.2.1 " " ["X"] [["SLP"]] (by decide),
   text_filters_trim_amended.2.2.2.2.2.2.1 "  " ["X"] [["Ann"]] (by decide),
   text_filters_trim_amended.2.2.2.2.2.2.2.1 " " ["X"] [["Mon"]] (by decide),
   text_filters_trim_amended.2.2.2.2.2.2.2.2.1 " " ["X"] [["ASD"]] (by decide),
   text_filters_trim_amended.2.2.2.2.2.2.2.2.2.1 " " ["X"] [["English"]] (by decide)⟩

/-- Claim C5: a record passes the multi-choice location filter iff its location
field value contains at least one selected choice as a substring (not exact set
membership): with choices ["NPD","CDC"] a record whose Location field is
"NPD, NPS" matches, and with zero choices selected the filter is inactive so
every record passes. -/
theorem location_filter_substring :
    (∀ (locs : List String) (v : String), locs ≠ [] →
        filter_data (onlyLocations locs) ["Location"] [[v]] =
          some (if locs.any (fun loc => strIn loc v) then [[v]] else [])) ∧
    (∀ (headers : List String) (records : List Row),
        filter_data (onlyLocations []) headers records = some records) ∧
    filter_data (onlyLocations ["NPD", "CDC"]) ["Location"] [["NPD, NPS"]] =
      some [["NPD, NPS"]] :=
  ⟨filter_data_onlyLocations,
   fun h r => filter_data_all_inactive _ h r rfl rfl (Or.inl rfl) rfl rfl rfl rfl,
   by decide⟩

/-- Witness for C5, discharging the nonemptiness hypothesis at the documented
example choices. -/
theorem location_filter_substring_witness :
    filter_data (onlyLocations ["NPD", "CDC"]) ["Location"] [["NPD, NPS"]] =
      some (if (["NPD", "CDC"] : List String).any (fun loc => strIn loc "NPD, NPS")
        then [["NPD, NPS"]] else []) :=
  location_filter_substring.1 ["NPD", "CDC"] "NPD, NPS" (by decide)

/-- Counterexample to claim C6: the location filter of `filter_data` performs
no case folding — the record ["NPD"] matches the choice "NPD", yet its
letter-case variant ["npd"] (same `pyLower` image) is rejected. -/
theorem location_case_cex :
    filter_data (onlyLocations ["NPD"]) ["Location"] [["NPD"]] = some [["NPD"]] ∧
    pyLower "npd" = pyLower "NPD" ∧
    filter_data (onlyLocations ["NPD"]) ["Location"] [["npd"]] = some [] := by decide

/-- Claim C6 as amended: the five free-text substring filters of the desktop
engine lowercase both the processed query and the field value, so their
outcome is unchanged under letter-case variations of either side; the
multi-choice location filter, however, matches the selected choices verbatim
with no case folding (a lowercase location cell does not match the uppercase
checkbox text), while the web variant's location filter is case-insensitive. -/
theorem case_folding_amended :
    (∀ q v w, pyLower v = pyLower w →
        (filter_data (onlyRole q) ["Role"] [[v]] = some [[v]] ↔
         filter_data (onlyRole q) ["Role"] [[w]] = some [[w]])) ∧
    (∀ q v w, pyLower v = pyLower w →
        (filter_data (onlyName q) ["Clinicians Name"] [[v]] = some [[v]] ↔
         filter_data (onlyName q) ["Clinicians Name"] [[w]] = some [[w]])) ∧
    (∀ q v w, pyLower v = pyLower w →
        (filter_data (onlyDays q) ["Days Available"] [[v]] = some [[v]] ↔
         filter_data (onlyDays q) ["Days Available"] [[w]] = some [[w]])) ∧
    (∀ q v w, pyLower v = pyLower w →
        (filter_data (onlySpecialty q) ["Specialty Areas"] [[v]] = some [[v]] ↔
         filter_data (onlySpecialty q) ["Specialty Areas"] [[w]] = some [[w]])) ∧
    (∀ q v w, pyLower v = pyLower w →
        (filter_data (onlyLanguages q) ["Languages Spoken"] [[v]] = some [[v]] ↔
         filter_data (onlyLanguages q) ["Languages Spoken"] [[w]] = some [[w]])) ∧
    (∀ q q' v, pyLower (pyStrip q) = pyLower (pyStrip q') →
        (filter_data (onlyRole q) ["Role"] [[v]] = some [[v]] ↔
         filter_data (onlyRole q') ["Role"] [[v]] = some [[v]])) ∧
    (∀ (locs : List String) (v : String), locs ≠ [] →
        filter_data (onlyLocations locs) ["Location"] [[v]] =
          some (if locs.any (fun loc => strIn loc v) then [[v]] else [])) ∧
    filter_data (onlyLocations ["NPD"]) ["Location"] [["npd"]] = some [] ∧
    webMain ⟨["NPD"], "", "", "All", "", "", ""⟩ ["Location"] [["npd"]] =
      some (.table [["npd"]]) := by
  refine ⟨?_, ?_, ?_, ?_, ?_, ?_, filter_data_onlyLocations, by decide, by decide⟩
  · intro q v w h
    rw [filter_data_onlyRole, filter_data_onlyRole, some_if_keep, some_if_keep, h]
  · intro q v w h
    rw [filter_data_onlyName, filter_data_onlyName, some_if_keep, some_if_keep, h]
  · intro q v w h
    rw [filter_data_onlyDays, filter_data_onlyDays, some_if_keep, some_if_keep, h]
  · intro q v w h
    rw [filter_data_onlySpecialty, filter_data_onlySpecialty, some_if_keep, some_if_keep, h]
  · intro q v w h
    rw [filter_data_onlyLanguages, filter_data_onlyLanguages, some_if_keep, some_if_keep, h]
  · intro q q' v h
    rw [filter_data_onlyRole, filter_data_onlyRole, some_if_keep, some_if_keep, h]

/-- Witness for the amended C6, discharging the case-variant hypotheses on a
concrete pair of case variants. -/
theorem case_folding_amended_witness :
    (filter_data (onlyRole "slp") ["Role"] [["SLP"]] = some [["SLP"]] ↔
     filter_data (onlyRole "slp") ["Role"] [["slp"]] = some [["slp"]]) ∧
    (filter_data (onlyRole "SLP") ["Role"] [["slp"]] = some [["slp"]] ↔
     filter_data (onlyRole "slp") ["Role"] [["slp"]] = some [["slp"]]) :=
  ⟨case_folding_amended.1 "slp" "SLP" "slp" (by decide),
   case_folding_amended.2.2.2.2.2.1 "SLP" "slp" "slp" (by decide)⟩

/-! Theorems for the claims about the record store, the photo machinery and the
web pipeline. -/

theorem findMatchRow_found {idx : Nat} {name : String} :
    ∀ (data : List Row) (i j : Nat), findMatchRow idx name data i = some (some j) →
      ∃ row ∈ data, row[idx]? = some name := by
  intro data
  induction data with
  | nil => intro i j h; cases h
  | cons row rest ih =>
    intro i j h
    cases hr : row[idx]? with
    | none => simp [findMatchRow, hr] at h
    | some v =>
      simp only [findMatchRow, hr] at h
      by_cases hv : v == name
      · have hvn : v = name := by simpa using hv
        exact ⟨row, List.mem_cons_self row rest, by rw [hr, hvn]⟩
      · rw [if_neg hv] at h
        obtain ⟨r, hmem, hval⟩ := ih (i + 1) j h
        exact ⟨r, List.mem_cons_of_mem row hmem, hval⟩

/-- Claim C7: when the selected identity value no longer occurs in the
last-loaded records, `update_data` reports the not-found error, performs no
external write, triggers no reload, and leaves the stored headers and records
unchanged; and a failed remote write likewise performs no reload and leaves
the in-memory store unchanged. -/
theorem update_data_failure_semantics :
    (∀ (store : Store) (name : String) (newValues : List String) (writeOk : Bool)
        (reloadStore : Store) (res : UpdateResult),
        (∀ row ∈ store.originalData, ∀ idx,
            pyIndex store.headers "Clinicians Name" = some idx → row[idx]? ≠ some name) →
        update_data store name newValues writeOk reloadStore = some res →
        res.outcome = .notFound ∧ res.store = store ∧ res.writes = [] ∧
          res.reloaded = false) ∧
    (∀ (store : Store) (name : String) (newValues : List String) (reloadStore : Store)
        (res : UpdateResult),
        update_data store name newValues false reloadStore = some res →
        res.store = store ∧ res.writes = [] ∧ res.reloaded = false) := by
  constructor
  · intro store name newValues writeOk reloadStore res hmiss h
    unfold update_data at h
    cases hidx : pyIndex store.headers "Clinicians Name" with
    | none => simp [hidx] at h
    | some idx =>
      simp only [hidx] at h
      cases hfind : findMatchRow idx name store.originalData 0 with
      | none => simp [hfind] at h
      | some found =>
        simp only [hfind] at h
        cases found with
        | none =>
          obtain rfl : (⟨.notFound, store, [], false⟩ : UpdateResult) = res := by
            simpa using h
          exact ⟨rfl, rfl, rfl, rfl⟩
        | some j =>
          obtain ⟨row, hmem, hval⟩ := findMatchRow_found store.originalData 0 j hfind
          exact absurd hval (hmiss row hmem idx hidx)
  · intro store name newValues reloadStore res h
    unfold update_data at h
    cases hidx : pyIndex store.headers "Clinicians Name" with
    | none => simp [hidx] at h
    | some idx =>
      simp only [hidx] at h
      cases hfind : findMatchRow idx name store.originalData 0 with
      | none => simp [hfind] at h
      | some found =>
        simp only [hfind] at h
        cases found with
        | none =>
          obtain rfl : (⟨.notFound, store, [], false⟩ : UpdateResult) = res := by
            simpa using h
          exact ⟨rfl, rfl, rfl⟩
        | some j =>
          obtain rfl : (⟨.writeFailed, store, [], false⟩ : UpdateResult) = res := by
            simpa using h
          exact ⟨rfl, rfl, rfl⟩

/-- Witness for C7, applying both failure conjuncts to a concrete roster that
does not contain the requested identity value. -/
theorem update_data_failure_semantics_witness :
    (UpdateOutcome.notFound = UpdateOutcome.notFound ∧
      (⟨["Clinicians Name"], [["Bob"]]⟩ : Store) = ⟨["Clinicians Name"], [["Bob"]]⟩ ∧
      ([] : List (Nat × List String)) = [] ∧ false = false) ∧
    ((⟨["Clinicians Name"], [["Bob"]]⟩ : Store) = ⟨["Clinicians Name"], [["Bob"]]⟩ ∧
      ([] : List (Nat × List String)) = [] ∧ false = false) :=
  ⟨update_data_failure_semantics.1 ⟨["Clinicians Name"], [["Bob"]]⟩ "Alice" ["X"] true
      ⟨[], []⟩ ⟨.notFound, ⟨["Clinicians Name"], [["Bob"]]⟩, [], false⟩
      (by decide) (by decide),
   update_data_failure_semantics.2 ⟨["Clinicians Name"], [["Bob"]]⟩ "Bob" ["X"]
      ⟨[], []⟩ ⟨.writeFailed, ⟨["Clinicians Name"], [["Bob"]]⟩, [], false⟩ (by decide)⟩

/-- Counterexample to claim C8: a header-only fetch result — exactly one row —
is not reported as an empty-source error by `load_data`; it succeeds,
installing the header row together with an empty roster. -/
theorem load_header_only_cex :
    load_data (some [["Clinicians Name", "Location", "Role"]]) =
      .ok ["Clinicians Name", "Location", "Role"] [] ∧
    load_data (some [["Clinicians Name", "Location", "Role"]]) ≠ .emptyWarn ∧
    load_data (some [["Clinicians Name", "Location", "Role"]]) ≠ .failed := by decide

/-- Claim C8 as amended: `load_data` reports the empty-source warning only when
the external source returns zero rows in total (header row included); a
header-only result of exactly one row is accepted without error and installs
that row as the headers with an empty roster; a fetch that raises is reported
as failed; in no case is the fetch retried — `load_data` calls it once. -/
theorem load_data_amended :
    load_data none = .failed ∧
    load_data (some []) = .emptyWarn ∧
    (∀ (h : Row) (t : List Row), load_data (some (h :: t)) = .ok h t) :=
  ⟨rfl, rfl, fun _ _ => rfl⟩

/-- Counterexample to claim C9: a slower in-flight fetch for a previously
selected record overwrites the currently displayed image.  After selecting the
record with photo URL a, then the record with photo URL b, the reply for b
displays b's image; when the slow reply for a then arrives, its URL is still a
key of photo_requests, so it overwrites the label even though the last request
issued was for b. -/
theorem photo_stale_overwrite_cex :
    (photoRun ⟨[], "No Photo"⟩
      [.select "http://a/p.png", .select "http://b/q.png",
       .response "http://b/q.png" true]).photoLabel = "http://b/q.png" ∧
    (photoRun ⟨[], "No Photo"⟩
      [.select "http://a/p.png", .select "http://b/q.png",
       .response "http://b/q.png" true, .response "http://a/p.png" true]).photoLabel =
      "http://a/p.png" ∧
    "http://a/p.png" ≠ "http://b/q.png" := by decide

/-- Claim C9 as amended: completions are matched to the display by URL alone —
a completion whose URL is absent from the pending map is discarded without
touching the label, but a slower in-flight fetch for a previously selected,
different URL still finds its pending entry and overwrites the currently
displayed image; across distinct URLs the final image follows completion
order, not request identity. -/
theorem photo_completion_amended :
    (∀ (s : PhotoState) (url : String) (ok : Bool),
        s.photoRequests.contains url = false →
        (handle_image_response s url ok).photoLabel = s.photoLabel) ∧
    (photoRun ⟨[], "No Photo"⟩
      [.select "http://a/p.png", .select "http://b/q.png",
       .response "http://b/q.png" true]).photoLabel = "http://b/q.png" ∧
    (photoRun ⟨[], "No Photo"⟩
      [.select "http://a/p.png", .select "http://b/q.png",
       .response "http://b/q.png" true, .response "http://a/p.png" true]).photoLabel =
      "http://a/p.png" := by
  refine ⟨?_, by decide, by decide⟩
  intro s url ok h
  have hmem : ¬ url ∈ s.photoRequests := by simpa using h
  simp [handle_image_response, hmem]

/-- Witness for the amended C9, discharging the absent-URL hypothesis on a
concrete state with no pending request. -/
theorem photo_completion_amended_witness :
    (handle_image_response ⟨[], "http://b/q.png"⟩ "http://a/p.png" true).photoLabel =
      "http://b/q.png" :=
  photo_completion_amended.1 ⟨[], "http://b/q.png"⟩ "http://a/p.png" true (by decide)

/-- Claim C10: in the web variant, when every filter is inactive (no location
selected, every query empty or all-whitespace, age group "All") and the data
is non-empty, the pipeline stops after showing the prompt: no staff rows are
rendered, so the full roster is never displayed without at least one active
criterion. -/
theorem web_inactive_prompt (c : WebCriteria) (headers : List String) (df : List Row)
    (hdf : df ≠ [])
    (hloc : c.selectedLocs = [])
    (hrole : pyStrip c.searchRole = "")
    (hname : pyStrip c.searchName = "")
    (hage : c.searchAge = "All")
    (hdays : pyStrip c.searchDays = "")
    (hspec : pyStrip c.searchSpecialty = "")
    (hlang : pyStrip c.searchLang = "") :
    webMain c headers df = some .prompt := by
  have hfa : filters_applied c = false := by
    simp [filters_applied, hloc, hrole, hname, hage, hdays, hspec, hlang]
  have hne : df.isEmpty = false := by
    cases df with
    | nil => exact absurd rfl hdf
    | cons r rs => rfl
  simp [webMain, hne, hfa]

/-- Witness for C10 on a concrete roster with every web filter inactive. -/
theorem web_inactive_prompt_witness :
    webMain ⟨[], "", "", "All", "", "", ""⟩ ["Role"] [["SLP"]] = some .prompt :=
  web_inactive_prompt ⟨[], "", "", "All", "", "", ""⟩ ["Role"] [["SLP"]]
    (by decide) rfl rfl rfl rfl rfl rfl rfl

end NCD
